import Mathlib

/-
  Verification of the real-time session/connection manager of the
  homelab-agent web chat client (frontend/src/App.tsx).

  The component state (React useState hooks) is embedded as `AppState`;
  each event handler is embedded as a function producing a list of
  primitive effects (`Eff`) in source order, and `applyEff`/`runEffs`
  interpret those effects on the state.  WebSocket frames arriving on
  the channel are embedded as `Frame`: a frame either carries a parsed
  `WSMessage` (the shape declared by the WSMessage interface of the
  source) or is not well-formed JSON, in which case JSON.parse throws:
  this is modelled by `onmessageHandler` returning `Except.error`.
  The React rule that an effect with dependency list [userId] re-runs
  only when userId has changed (compared with Object.is between
  renders) is embedded in `runUserIdEffect`.
-/

namespace HomelabAgent

/-- Sender values of the WSMessage interface and of MessageData:
"user" | "assistant" | "system" | "tool". -/
inductive Sender
  | user
  | assistant
  | system
  | tool
deriving DecidableEq, Repr

/-- A timestamp value: either parsed from an ISO string carried by the
frame (new Date(data.timestamp)) or taken from the local clock
(new Date()), the clock reading being an abstract `Nat` instant. -/
inductive Timestamp
  | fromISO (iso : String)
  | now (t : Nat)
deriving DecidableEq, Repr

/-- A chat entry, the MessageData record of the presentation layer as
used by App.tsx.  The id is generated client-side
(Date.now().toString() + Math.random().toString(36)); id generation is
nondeterministic, so handlers take the generated id as an input. -/
structure MessageData where
  id : String
  sender : Sender
  content : String
  timestamp : Timestamp
deriving DecidableEq, Repr

/-- WebSocket readyState values. -/
inductive ReadyState
  | CONNECTING
  | OPEN
  | CLOSING
  | CLOSED
deriving DecidableEq, Repr

/-- The WebSocket held in wsRef: the identity it was opened for
(the /ws/targetUserId address) and its readyState. -/
structure Conn where
  target : String
  readyState : ReadyState
deriving DecidableEq, Repr

/-- The WSMessage interface of App.tsx.  The type field is kept as a
raw string so that frames of unknown kind can be expressed; the other
fields are optional exactly as in the interface. -/
structure WSMessage where
  type : String
  sender : Option Sender := none
  content : Option String := none
  timestamp : Option String := none
  typing : Option Bool := none
deriving DecidableEq, Repr

/-- A raw inbound frame: either text that is not well-formed JSON
(JSON.parse throws a SyntaxError on it) or a parsed WSMessage. -/
inductive Frame
  | malformed (raw : String)
  | valid (data : WSMessage)
deriving DecidableEq, Repr

/-- Outbound actions sent over the channel (ws.send payloads). -/
inductive OutMsg
  | message (content : String)
  | forget
deriving DecidableEq, Repr

/-- Primitive effects issued by the event handlers, in source order:
state-setter calls of the useState hooks, ws.send, ws.close, and the
construction of a new WebSocket. -/
inductive Eff
  | appendMsg (m : MessageData)
  | setMessages (ms : List MessageData)
  | setTyping (b : Bool)
  | setInput (s : String)
  | setUserId (uid : String)
  | setShowSessionPicker (b : Bool)
  | setNewUserId (s : String)
  | wsSend (m : OutMsg)
  | wsClose
  | wsOpen (target : String)
deriving DecidableEq, Repr

/-- The component state: the useState hooks of App.tsx that the core
manipulates, plus the wsRef connection reference. -/
structure AppState where
  messages : List MessageData
  input : String
  isTyping : Bool
  userId : String
  showSessionPicker : Bool
  newUserId : String
  ws : Option Conn
deriving DecidableEq, Repr

/-- Interpretation of one primitive effect on the state.  ws.close
moves the referenced socket to CLOSING; constructing a new WebSocket
replaces the reference with a CONNECTING socket for the new target. -/
def applyEff (st : AppState) : Eff → AppState
  | Eff.appendMsg m => { st with messages := st.messages ++ [m] }
  | Eff.setMessages ms => { st with messages := ms }
  | Eff.setTyping b => { st with isTyping := b }
  | Eff.setInput s => { st with input := s }
  | Eff.setUserId uid => { st with userId := uid }
  | Eff.setShowSessionPicker b => { st with showSessionPicker := b }
  | Eff.setNewUserId s => { st with newUserId := s }
  | Eff.wsSend _ => st
  | Eff.wsClose =>
      { st with ws := st.ws.map (fun c => { c with readyState := ReadyState.CLOSING }) }
  | Eff.wsOpen t =>
      { st with ws := some { target := t, readyState := ReadyState.CONNECTING } }

/-- Run a list of effects left to right. -/
def runEffs (st : AppState) (effs : List Eff) : AppState :=
  effs.foldl applyEff st

/-- The JavaScript String.prototype.trim operation: strip leading and
trailing whitespace.  (Defined structurally over the character list so
that concrete inputs evaluate by kernel reduction.) -/
def jsTrim (s : String) : String :=
  String.mk
    (((s.toList.dropWhile Char.isWhitespace).reverse.dropWhile Char.isWhitespace).reverse)

/-- JavaScript truthiness of an optional string field: present and
non-empty. -/
def truthyContent : Option String → Bool
  | some s => s != ""
  | none => false

/-- data.timestamp ? new Date(data.timestamp) : new Date() -/
def mkTimestamp (ts : Option String) (now : Nat) : Timestamp :=
  match ts with
  | some s => if s != "" then Timestamp.fromISO s else Timestamp.now now
  | none => Timestamp.now now

/-- The body of ws.onmessage after JSON.parse has succeeded: dispatch
on data.type.  A "message" frame with truthy content appends an entry
with sender data.sender || "assistant" and sets isTyping false; a
"typing" frame sets isTyping to data.typing || false; a "tool" frame
with truthy content appends an entry with sender "tool"; anything else
produces no effect.  fid is the generated entry id, now the clock. -/
def dispatchWSMessage (data : WSMessage) (fid : String) (now : Nat) : List Eff :=
  if data.type == "message" && truthyContent data.content then
    [Eff.appendMsg
      { id := fid
        sender := data.sender.getD Sender.assistant
        content := data.content.getD ""
        timestamp := mkTimestamp data.timestamp now },
     Eff.setTyping false]
  else if data.type == "typing" then
    [Eff.setTyping (data.typing.getD false)]
  else if data.type == "tool" && truthyContent data.content then
    [Eff.appendMsg
      { id := fid
        sender := Sender.tool
        content := data.content.getD ""
        timestamp := mkTimestamp data.timestamp now }]
  else []

/-- The ws.onmessage handler: JSON.parse the frame, then dispatch.
On a frame that is not well-formed JSON, JSON.parse throws, so the
handler exits exceptionally having issued no effect. -/
def onmessageHandler (fid : String) (now : Nat) : Frame → Except String (List Eff)
  | Frame.malformed raw => Except.error raw
  | Frame.valid data => Except.ok (dispatchWSMessage data fid now)

/-- Delivery of one frame by the event loop: an exception escaping the
onmessage listener is reported by the runtime and absorbed; it does
not alter the component state or tear down the socket. -/
def deliverFrame (st : AppState) (fid : String) (now : Nat) (f : Frame) : AppState :=
  match onmessageHandler fid now f with
  | Except.error _ => st
  | Except.ok effs => runEffs st effs

/-- Delivery of a finite sequence of frames in order; each frame comes
with the id and clock instant generated at its arrival. -/
def deliverAll (st : AppState) : List (String × Nat × Frame) → AppState
  | [] => st
  | (fid, now, f) :: rest => deliverAll (deliverFrame st fid now f) rest

/-- The entries a single frame appends to the timeline. -/
def effAppends (effs : List Eff) : List MessageData :=
  effs.filterMap (fun e =>
    match e with
    | Eff.appendMsg m => some m
    | _ => none)

/-- The entries appended for one delivered frame. -/
def frameAppends (fid : String) (now : Nat) : Frame → List MessageData
  | Frame.malformed _ => []
  | Frame.valid data => effAppends (dispatchWSMessage data fid now)

/-- The entries appended for a sequence of delivered frames, in
delivery order. -/
def framesAppends : List (String × Nat × Frame) → List MessageData
  | [] => []
  | (fid, now, f) :: rest => frameAppends fid now f ++ framesAppends rest

/-- The outbound payloads transmitted in a trace. -/
def sentMsgs (effs : List Eff) : List OutMsg :=
  effs.filterMap (fun e =>
    match e with
    | Eff.wsSend m => some m
    | _ => none)

/-- The targets for which a trace constructs a new WebSocket. -/
def connTargetsOpened (effs : List Eff) : List String :=
  effs.filterMap (fun e =>
    match e with
    | Eff.wsOpen t => some t
    | _ => none)

/-- Whether a trace closes the current socket. -/
def closesChannel (effs : List Eff) : Bool :=
  effs.any (fun e =>
    match e with
    | Eff.wsClose => true
    | _ => false)

/-- The ChannelState abstraction of the spec: connecting, open or
closed.  A missing socket, a CLOSING socket and a CLOSED socket all
present as closed. -/
inductive ChannelState
  | connecting
  | Open
  | closed
deriving DecidableEq, Repr

/-- ChannelState of the current connection reference. -/
def channelState : Option Conn → ChannelState
  | none => ChannelState.closed
  | some c =>
    match c.readyState with
    | ReadyState.CONNECTING => ChannelState.connecting
    | ReadyState.OPEN => ChannelState.Open
    | ReadyState.CLOSING => ChannelState.closed
    | ReadyState.CLOSED => ChannelState.closed

/-- The connect callback: close the existing connection if one exists,
then construct a new WebSocket addressed by the target identity. -/
def connectEffs (ws : Option Conn) (target : String) : List Eff :=
  (match ws with
   | some _ => [Eff.wsClose]
   | none => []) ++ [Eff.wsOpen target]

/-- The cleanup of the [userId] effect: close wsRef.current if set. -/
def effectCleanup (ws : Option Conn) : List Eff :=
  match ws with
  | some _ => [Eff.wsClose]
  | none => []

/-- The React effect with dependency list [userId, connect]: connect is
a stable useCallback, so the effect re-runs exactly when userId changed
since the previous render (Object.is comparison of the dependency).
When it re-runs, the previous cleanup executes first, then
connect(userId). -/
def runUserIdEffect (prevUserId : String) (st : AppState) : AppState × List Eff :=
  if st.userId = prevUserId then (st, [])
  else
    let cl := effectCleanup st.ws
    let st1 := runEffs st cl
    let co := connectEffs st1.ws st.userId
    (runEffs st1 co, cl ++ co)

/-- Apply the state updates of one handler, then the [userId] effect
of the re-render; returns the final state and the full effect trace. -/
def completeRender (prevUserId : String) (st : AppState) (hEffs : List Eff) :
    AppState × List Eff :=
  let st1 := runEffs st hEffs
  let (st2, eEffs) := runUserIdEffect prevUserId st1
  (st2, hEffs ++ eEffs)

/-- State updates of the switchSession handler, in source order. -/
def switchSessionEffs (newId : String) : List Eff :=
  [Eff.setMessages [], Eff.setUserId newId, Eff.setShowSessionPicker false]

/-- switchSession(newId) followed by the re-render with its [userId]
effect. -/
def switchSession (st : AppState) (newId : String) : AppState × List Eff :=
  completeRender st.userId st (switchSessionEffs newId)

/-- handleNewSession: derive the id as newUserId.trim() when non-empty,
otherwise "web_" plus a random suffix (supplied as input rand), call
switchSession with it, reset the newUserId field, then re-render. -/
def handleNewSession (st : AppState) (rand : String) : AppState × List Eff :=
  let id := if jsTrim st.newUserId = "" then "web_" ++ rand else jsTrim st.newUserId
  completeRender st.userId st (switchSessionEffs id ++ [Eff.setNewUserId ""])

/-- The sendMessage handler: guard !content || !wsRef.current ||
wsRef.current.readyState !== WebSocket.OPEN, then append the user
entry, send the "message" action, clear the input box, set isTyping. -/
def sendMessageEffs (st : AppState) (fid : String) (now : Nat) : List Eff :=
  let content := jsTrim st.input
  if content = "" then []
  else
    match st.ws with
    | none => []
    | some conn =>
      if conn.readyState = ReadyState.OPEN then
        [Eff.appendMsg
          { id := fid, sender := Sender.user, content := content,
            timestamp := Timestamp.now now },
         Eff.wsSend (OutMsg.message content),
         Eff.setInput "",
         Eff.setTyping true]
      else []

/-- sendMessage handler applied to the state (userId is untouched, so
no [userId] effect fires on the re-render). -/
def sendMessage (st : AppState) (fid : String) (now : Nat) : AppState × List Eff :=
  (runEffs st (sendMessageEffs st fid now), sendMessageEffs st fid now)

/-- The forgetSession handler: guard !wsRef.current ||
wsRef.current.readyState !== WebSocket.OPEN, then send the "forget"
action and empty the message list. -/
def forgetSessionEffs (ws : Option Conn) : List Eff :=
  match ws with
  | none => []
  | some conn =>
    if conn.readyState = ReadyState.OPEN then
      [Eff.wsSend OutMsg.forget, Eff.setMessages []]
    else []

/-- forgetSession applied to the state (userId is untouched, so no
[userId] effect fires on the re-render). -/
def forgetSession (st : AppState) : AppState × List Eff :=
  (runEffs st (forgetSessionEffs st.ws), forgetSessionEffs st.ws)

/-- The useState initial values of App.tsx; the initial userId is
"web_" plus a random suffix. -/
def initialAppState (rand : String) : AppState :=
  { messages := []
    input := ""
    isTyping := false
    userId := "web_" ++ rand
    showSessionPicker := false
    newUserId := ""
    ws := none }

/-- Effects that never replace the whole message list (everything
except setMessages). -/
def appendOnly : Eff → Bool
  | Eff.setMessages _ => false
  | _ => true

theorem runEffs_cons (st : AppState) (e : Eff) (effs : List Eff) :
    runEffs st (e :: effs) = runEffs (applyEff st e) effs := rfl

theorem runEffs_messages_of_appendOnly (st : AppState) (effs : List Eff)
    (h : ∀ e ∈ effs, appendOnly e = true) :
    (runEffs st effs).messages = st.messages ++ effAppends effs := by
  induction effs generalizing st with
  | nil => simp [runEffs, effAppends]
  | cons e rest ih =>
    have he : appendOnly e = true := h e (List.mem_cons_self _ _)
    have hrest : ∀ x ∈ rest, appendOnly x = true :=
      fun x hx => h x (List.mem_cons_of_mem _ hx)
    rw [runEffs_cons]
    cases e with
    | setMessages ms => simp [appendOnly] at he
    | appendMsg m =>
        rw [ih _ hrest]
        simp [applyEff, effAppends]
    | setTyping b =>
        rw [ih _ hrest]
        simp [applyEff, effAppends]
    | setInput s =>
        rw [ih _ hrest]
        simp [applyEff, effAppends]
    | setUserId uid =>
        rw [ih _ hrest]
        simp [applyEff, effAppends]
    | setShowSessionPicker b =>
        rw [ih _ hrest]
        simp [applyEff, effAppends]
    | setNewUserId s =>
        rw [ih _ hrest]
        simp [applyEff, effAppends]
    | wsSend m =>
        rw [ih _ hrest]
        simp [applyEff, effAppends]
    | wsClose =>
        rw [ih _ hrest]
        simp [applyEff, effAppends]
    | wsOpen t =>
        rw [ih _ hrest]
        simp [applyEff, effAppends]

theorem dispatch_appendOnly (data : WSMessage) (fid : String) (now : Nat) :
    ∀ e ∈ dispatchWSMessage data fid now, appendOnly e = true := by
  intro e he
  unfold dispatchWSMessage at he
  split at he
  · simp only [List.mem_cons, List.mem_singleton] at he
    rcases he with he | he | he
    · subst he; rfl
    · subst he; rfl
    · cases he
  · split at he
    · simp only [List.mem_singleton] at he
      subst he; rfl
    · split at he
      · simp only [List.mem_singleton] at he
        subst he; rfl
      · cases he

theorem deliverFrame_messages (st : AppState) (fid : String) (now : Nat) (f : Frame) :
    (deliverFrame st fid now f).messages = st.messages ++ frameAppends fid now f := by
  cases f with
  | malformed raw => simp [deliverFrame, onmessageHandler, frameAppends]
  | valid data =>
      show (runEffs st (dispatchWSMessage data fid now)).messages = _
      rw [runEffs_messages_of_appendOnly st _ (dispatch_appendOnly data fid now)]
      rfl

/-- C1 (amended): on a frame whose payload is not well-formed JSON,
JSON.parse throws inside ws.onmessage; the exception escapes the
handler and is absorbed by the event loop, so no effect is issued and
the delivered frame leaves the whole component state — Timeline,
TypingFlag and connection reference included — unchanged, and the
channel stays up. -/
theorem claim1_malformed_frame_state_unchanged (st : AppState) (fid : String)
    (now : Nat) (raw : String) :
    deliverFrame st fid now (Frame.malformed raw) = st := rfl

/-- C1 counterexample: on the frame "\x7bnot json" the handler does
throw (there is no try/catch around JSON.parse), so the claim that the
frame is dropped "without throwing" is false: the handler exits with
an exception rather than returning an effect list. -/
theorem claim1_counterexample :
    onmessageHandler "f0" 0 (Frame.malformed "\x7bnot json")
      = Except.error "\x7bnot json" := rfl

/-- C4: for every finite sequence of inbound frames delivered on the
channel, the resulting Timeline is the previous Timeline followed by
exactly the entries each frame appends, concatenated in delivery
order: no reordering and no deduplication. -/
theorem claim4_timeline_order_preserved (st : AppState)
    (frames : List (String × Nat × Frame)) :
    (deliverAll st frames).messages = st.messages ++ framesAppends frames := by
  induction frames generalizing st with
  | nil => simp [deliverAll, framesAppends]
  | cons p rest ih =>
      obtain ⟨fid, now, f⟩ := p
      show (deliverAll (deliverFrame st fid now f) rest).messages = _
      rw [ih, deliverFrame_messages]
      simp [framesAppends, List.append_assoc]

/-- C10: an inbound "message" or "tool" frame whose content field is
missing or the empty string (JavaScript-falsy) fails the content guard
and changes nothing: no entry is appended and TypingFlag keeps its
previous value. -/
theorem claim10_empty_content_ignored (st : AppState) (fid : String) (now : Nat)
    (data : WSMessage)
    (htype : data.type = "message" ∨ data.type = "tool")
    (hc : data.content = none ∨ data.content = some "") :
    deliverFrame st fid now (Frame.valid data) = st := by
  have htc : truthyContent data.content = false := by
    rcases hc with h | h <;> simp [truthyContent, h]
  show runEffs st (dispatchWSMessage data fid now) = st
  rcases htype with h | h <;> simp [dispatchWSMessage, h, htc, runEffs]

def claim10_state : AppState :=
  { messages := [{ id := "m1", sender := Sender.user, content := "ping",
                   timestamp := Timestamp.now 1 }]
    input := ""
    isTyping := true
    userId := "web_a"
    showSessionPicker := false
    newUserId := ""
    ws := some { target := "web_a", readyState := ReadyState.OPEN } }

def claim10_data : WSMessage := { type := "message", content := some "" }

theorem claim10_witness :
    (claim10_data.type = "message" ∨ claim10_data.type = "tool")
    ∧ (claim10_data.content = none ∨ claim10_data.content = some "")
    ∧ deliverFrame claim10_state "f9" 9 (Frame.valid claim10_data) = claim10_state :=
  ⟨Or.inl rfl, Or.inr rfl,
    claim10_empty_content_ignored claim10_state "f9" 9 claim10_data
      (Or.inl rfl) (Or.inr rfl)⟩

def claim7_state : AppState :=
  { messages := []
    input := ""
    isTyping := true
    userId := "web_a"
    showSessionPicker := false
    newUserId := ""
    ws := some { target := "web_a", readyState := ReadyState.OPEN } }

/-- C7 counterexample: a "message" event whose content field is absent
appends no entry and leaves TypingFlag at true, contradicting the
claim that every message event appends one entry and sets TypingFlag
to false. -/
theorem claim7_counterexample :
    deliverFrame claim7_state "f1" 1 (Frame.valid { type := "message" }) = claim7_state
    ∧ claim7_state.messages = []
    ∧ claim7_state.isTyping = true := by decide

/-- C7 (amended): a "message" event with present non-empty content
appends one entry whose sender is the declared sender (defaulting to
assistant when unspecified) and sets TypingFlag to false; a "typing"
event sets TypingFlag to its boolean payload (false when absent) and
appends nothing; a "tool" event with present non-empty content appends
one entry with sender tool and leaves TypingFlag unchanged; an event
of any other kind leaves the state unchanged.  ("message" and "tool"
events whose content is missing or empty also change nothing, see the
counterexample and C10.) -/
theorem claim7_dispatch_behavior (st : AppState) (data : WSMessage)
    (fid : String) (now : Nat) :
    (data.type = "message" → truthyContent data.content = true →
        (deliverFrame st fid now (Frame.valid data)).messages
          = st.messages
            ++ [{ id := fid, sender := data.sender.getD Sender.assistant,
                  content := data.content.getD "",
                  timestamp := mkTimestamp data.timestamp now }]
      ∧ (deliverFrame st fid now (Frame.valid data)).isTyping = false)
    ∧ (data.type = "typing" →
        (deliverFrame st fid now (Frame.valid data)).messages = st.messages
      ∧ (deliverFrame st fid now (Frame.valid data)).isTyping = data.typing.getD false)
    ∧ (data.type = "tool" → truthyContent data.content = true →
        (deliverFrame st fid now (Frame.valid data)).messages
          = st.messages
            ++ [{ id := fid, sender := Sender.tool,
                  content := data.content.getD "",
                  timestamp := mkTimestamp data.timestamp now }]
      ∧ (deliverFrame st fid now (Frame.valid data)).isTyping = st.isTyping)
    ∧ (data.type ≠ "message" → data.type ≠ "typing" → data.type ≠ "tool" →
        deliverFrame st fid now (Frame.valid data) = st) := by
  refine ⟨?_, ?_, ?_, ?_⟩
  · intro h1 h2
    show (runEffs st (dispatchWSMessage data fid now)).messages = _
      ∧ (runEffs st (dispatchWSMessage data fid now)).isTyping = false
    simp [dispatchWSMessage, h1, h2, runEffs, applyEff]
  · intro h1
    show (runEffs st (dispatchWSMessage data fid now)).messages = _
      ∧ (runEffs st (dispatchWSMessage data fid now)).isTyping = _
    simp [dispatchWSMessage, h1, runEffs, applyEff]
  · intro h1 h2
    show (runEffs st (dispatchWSMessage data fid now)).messages = _
      ∧ (runEffs st (dispatchWSMessage data fid now)).isTyping = _
    simp [dispatchWSMessage, h1, h2, runEffs, applyEff]
  · intro h1 h2 h3
    have e1 : (data.type == "message") = false := by
      cases hb : data.type == "message"
      · rfl
      · exact absurd (eq_of_beq hb) h1
    have e2 : (data.type == "typing") = false := by
      cases hb : data.type == "typing"
      · rfl
      · exact absurd (eq_of_beq hb) h2
    have e3 : (data.type == "tool") = false := by
      cases hb : data.type == "tool"
      · rfl
      · exact absurd (eq_of_beq hb) h3
    show runEffs st (dispatchWSMessage data fid now) = st
    simp [dispatchWSMessage, e1, e2, e3, runEffs]

def claim7_data : WSMessage := { type := "message", content := some "pong" }

theorem claim7_witness :
    (deliverFrame claim7_state "f2" 2 (Frame.valid claim7_data)).messages
      = claim7_state.messages
        ++ [{ id := "f2", sender := Sender.assistant, content := "pong",
              timestamp := Timestamp.now 2 }]
    ∧ (deliverFrame claim7_state "f2" 2 (Frame.valid claim7_data)).isTyping = false :=
  (claim7_dispatch_behavior claim7_state claim7_data "f2" 2).1 rfl rfl

/-- C6: sendMessage invoked while the channel is connecting or closed
(no socket, or a socket whose readyState is not OPEN), or with input
that trims to the empty string, issues no effect at all: nothing is
transmitted, nothing is thrown, and the state — Timeline and
TypingFlag included — is returned unchanged. -/
theorem claim6_send_noop (st : AppState) (fid : String) (now : Nat)
    (h : channelState st.ws = ChannelState.connecting
       ∨ channelState st.ws = ChannelState.closed
       ∨ jsTrim st.input = "") :
    sendMessage st fid now = (st, []) := by
  have heffs : sendMessageEffs st fid now = [] := by
    by_cases hin : jsTrim st.input = ""
    · simp [sendMessageEffs, hin]
    · cases hws : st.ws with
      | none => simp [sendMessageEffs, hin, hws]
      | some conn =>
        cases hrs : conn.readyState with
        | CONNECTING => simp [sendMessageEffs, hin, hws, hrs]
        | CLOSING => simp [sendMessageEffs, hin, hws, hrs]
        | CLOSED => simp [sendMessageEffs, hin, hws, hrs]
        | OPEN =>
            exfalso
            rcases h with h | h | h
            · rw [hws] at h; simp [channelState, hrs] at h
            · rw [hws] at h; simp [channelState, hrs] at h
            · exact hin h
  simp [sendMessage, heffs, runEffs]

def claim6_state : AppState :=
  { messages := [{ id := "m1", sender := Sender.user, content := "ping",
                   timestamp := Timestamp.now 1 }]
    input := "hello"
    isTyping := false
    userId := "web_a"
    showSessionPicker := false
    newUserId := ""
    ws := none }

theorem claim6_witness :
    (channelState claim6_state.ws = ChannelState.connecting
       ∨ channelState claim6_state.ws = ChannelState.closed
       ∨ jsTrim claim6_state.input = "")
    ∧ sendMessage claim6_state "f3" 3 = (claim6_state, []) :=
  ⟨Or.inr (Or.inl rfl),
    claim6_send_noop claim6_state "f3" 3 (Or.inr (Or.inl rfl))⟩

/-- C5: when the trimmed input is non-empty and the socket is OPEN,
sendMessage issues, in this order: append one user entry carrying the
submitted (trimmed) content, transmit the "message" action with that
same content, clear the input box, set TypingFlag to true.  The
append strictly precedes the outbound send in the trace, the entry
lands at the end of the Timeline, and TypingFlag ends up true. -/
theorem claim5_sendMessage_order (st : AppState) (fid : String) (now : Nat)
    (conn : Conn) (hws : st.ws = some conn)
    (hopen : conn.readyState = ReadyState.OPEN)
    (hin : jsTrim st.input ≠ "") :
    (sendMessage st fid now).2
      = [Eff.appendMsg { id := fid, sender := Sender.user, content := jsTrim st.input,
                         timestamp := Timestamp.now now },
         Eff.wsSend (OutMsg.message (jsTrim st.input)),
         Eff.setInput "",
         Eff.setTyping true]
    ∧ (sendMessage st fid now).1.messages
      = st.messages ++ [{ id := fid, sender := Sender.user, content := jsTrim st.input,
                          timestamp := Timestamp.now now }]
    ∧ (sendMessage st fid now).1.isTyping = true := by
  have heffs : sendMessageEffs st fid now
      = [Eff.appendMsg { id := fid, sender := Sender.user, content := jsTrim st.input,
                         timestamp := Timestamp.now now },
         Eff.wsSend (OutMsg.message (jsTrim st.input)),
         Eff.setInput "",
         Eff.setTyping true] := by
    simp [sendMessageEffs, hin, hws, hopen]
  refine ⟨heffs, ?_, ?_⟩ <;> simp [sendMessage, heffs, runEffs, applyEff]

def claim5_state : AppState :=
  { messages := []
    input := " hello "
    isTyping := false
    userId := "web_a"
    showSessionPicker := false
    newUserId := ""
    ws := some { target := "web_a", readyState := ReadyState.OPEN } }

theorem claim5_witness :
    (sendMessage claim5_state "f4" 4).2
      = [Eff.appendMsg { id := "f4", sender := Sender.user, content := "hello",
                         timestamp := Timestamp.now 4 },
         Eff.wsSend (OutMsg.message "hello"),
         Eff.setInput "",
         Eff.setTyping true]
    ∧ (sendMessage claim5_state "f4" 4).1.messages
      = claim5_state.messages
        ++ [{ id := "f4", sender := Sender.user, content := "hello",
              timestamp := Timestamp.now 4 }]
    ∧ (sendMessage claim5_state "f4" 4).1.isTyping = true :=
  claim5_sendMessage_order claim5_state "f4" 4
    { target := "web_a", readyState := ReadyState.OPEN } rfl rfl (by decide)

def claim2_state_closed : AppState :=
  { messages := [{ id := "m1", sender := Sender.user, content := "ping",
                   timestamp := Timestamp.now 1 }]
    input := ""
    isTyping := false
    userId := "web_a"
    showSessionPicker := false
    newUserId := ""
    ws := none }

def claim2_state_open : AppState :=
  { messages := []
    input := ""
    isTyping := true
    userId := "web_a"
    showSessionPicker := false
    newUserId := ""
    ws := some { target := "web_a", readyState := ReadyState.OPEN } }

/-- C2 counterexample: with the channel closed, forgetSession leaves
the nonempty Timeline in place (the claim demands it become empty);
and with the channel open and TypingFlag true, forgetSession leaves
TypingFlag true (the claim demands false). -/
theorem claim2_counterexample :
    (forgetSession claim2_state_closed).1.messages
      = [{ id := "m1", sender := Sender.user, content := "ping",
           timestamp := Timestamp.now 1 }]
    ∧ (forgetSession claim2_state_open).1.isTyping = true := by decide

/-- C2 (amended): forgetSession acts only when the socket exists and
is OPEN: it then sends the "forget" action and empties the Timeline,
leaving TypingFlag (and everything else) unchanged.  When the channel
is connecting or closed the guard returns early and nothing happens:
the Timeline is not cleared and nothing is sent. -/
theorem claim2_forget_behavior (st : AppState) :
    (channelState st.ws = ChannelState.Open →
        forgetSession st
          = ({ st with messages := [] },
             [Eff.wsSend OutMsg.forget, Eff.setMessages []]))
    ∧ (channelState st.ws ≠ ChannelState.Open → forgetSession st = (st, [])) := by
  constructor
  · intro h
    cases hws : st.ws with
    | none => rw [hws] at h; simp [channelState] at h
    | some conn =>
      cases hrs : conn.readyState with
      | OPEN => simp [forgetSession, forgetSessionEffs, hws, hrs, runEffs, applyEff]
      | CONNECTING => rw [hws] at h; simp [channelState, hrs] at h
      | CLOSING => rw [hws] at h; simp [channelState, hrs] at h
      | CLOSED => rw [hws] at h; simp [channelState, hrs] at h
  · intro h
    cases hws : st.ws with
    | none => simp [forgetSession, forgetSessionEffs, hws, runEffs]
    | some conn =>
      cases hrs : conn.readyState with
      | OPEN => exact absurd (by rw [hws]; simp [channelState, hrs]) h
      | CONNECTING => simp [forgetSession, forgetSessionEffs, hws, hrs, runEffs]
      | CLOSING => simp [forgetSession, forgetSessionEffs, hws, hrs, runEffs]
      | CLOSED => simp [forgetSession, forgetSessionEffs, hws, hrs, runEffs]

theorem claim2_witness :
    forgetSession claim2_state_open
      = ({ claim2_state_open with messages := [] },
         [Eff.wsSend OutMsg.forget, Eff.setMessages []])
    ∧ forgetSession claim2_state_closed = (claim2_state_closed, []) :=
  ⟨(claim2_forget_behavior claim2_state_open).1 rfl,
   (claim2_forget_behavior claim2_state_closed).2 (by decide)⟩

def claim3_state : AppState :=
  { messages := [{ id := "m1", sender := Sender.user, content := "ping",
                   timestamp := Timestamp.now 1 }]
    input := ""
    isTyping := false
    userId := "web_a"
    showSessionPicker := true
    newUserId := ""
    ws := some { target := "web_a", readyState := ReadyState.OPEN } }

/-- C3 counterexample: switching to the currently active identity
clears the Timeline but performs no channel teardown and no reopen:
the trace contains no close and opens no connection, and the
previously open socket is untouched — not "exactly as a switch to a
different identity", which closes and reopens. -/
theorem claim3_counterexample :
    (switchSession claim3_state "web_a").1.ws
      = some { target := "web_a", readyState := ReadyState.OPEN }
    ∧ connTargetsOpened (switchSession claim3_state "web_a").2 = []
    ∧ closesChannel (switchSession claim3_state "web_a").2 = false
    ∧ (switchSession claim3_state "web_a").1.messages = [] := by decide

/-- C3 (amended): switchSession always clears the Timeline and sets
the identity, but the channel is closed and reopened only when the new
identity differs from the active one: setUserId with an identical
value leaves the [userId] effect dependency unchanged, so the effect
does not re-run and no connection is closed or opened.  A same-identity
switch is thus not a full reset, though not a no-op either (the
Timeline is still cleared). -/
theorem claim3_switch_reconnect (st : AppState) (newId : String) :
    (newId ≠ st.userId →
        (switchSession st newId).1.messages = []
      ∧ (switchSession st newId).1.userId = newId
      ∧ (switchSession st newId).1.ws
          = some { target := newId, readyState := ReadyState.CONNECTING }
      ∧ connTargetsOpened (switchSession st newId).2 = [newId]
      ∧ closesChannel (switchSession st newId).2 = st.ws.isSome)
    ∧ (newId = st.userId →
        (switchSession st newId).1.messages = []
      ∧ (switchSession st newId).1.userId = newId
      ∧ (switchSession st newId).1.ws = st.ws
      ∧ connTargetsOpened (switchSession st newId).2 = []
      ∧ closesChannel (switchSession st newId).2 = false) := by
  constructor
  · intro hne
    cases hws : st.ws with
    | none =>
        simp [switchSession, completeRender, switchSessionEffs, runEffs, applyEff,
              runUserIdEffect, effectCleanup, connectEffs, hws, hne,
              connTargetsOpened, closesChannel]
    | some conn =>
        simp [switchSession, completeRender, switchSessionEffs, runEffs, applyEff,
              runUserIdEffect, effectCleanup, connectEffs, hws, hne,
              connTargetsOpened, closesChannel]
  · intro heq
    simp [switchSession, completeRender, switchSessionEffs, runEffs, applyEff,
          runUserIdEffect, heq, connTargetsOpened, closesChannel]

theorem claim3_witness :
    ((switchSession claim3_state "web_b").1.messages = []
      ∧ (switchSession claim3_state "web_b").1.userId = "web_b"
      ∧ (switchSession claim3_state "web_b").1.ws
          = some { target := "web_b", readyState := ReadyState.CONNECTING }
      ∧ connTargetsOpened (switchSession claim3_state "web_b").2 = ["web_b"]
      ∧ closesChannel (switchSession claim3_state "web_b").2 = claim3_state.ws.isSome)
    ∧ ((switchSession claim3_state "web_a").1.messages = []
      ∧ (switchSession claim3_state "web_a").1.userId = "web_a"
      ∧ (switchSession claim3_state "web_a").1.ws = claim3_state.ws
      ∧ connTargetsOpened (switchSession claim3_state "web_a").2 = []
      ∧ closesChannel (switchSession claim3_state "web_a").2 = false) :=
  ⟨(claim3_switch_reconnect claim3_state "web_b").1 (by decide),
   (claim3_switch_reconnect claim3_state "web_a").2 rfl⟩

def claim8_state : AppState :=
  { messages := [{ id := "m1", sender := Sender.user, content := "ping",
                   timestamp := Timestamp.now 1 }]
    input := ""
    isTyping := true
    userId := "web_a"
    showSessionPicker := false
    newUserId := ""
    ws := some { target := "web_a", readyState := ReadyState.OPEN } }

/-- C8 counterexample: a session switch away from a state with
TypingFlag true empties the Timeline but leaves TypingFlag at true —
the claim demands it be reset to false. -/
theorem claim8_counterexample :
    (switchSession claim8_state "web_b").1.messages = []
    ∧ (switchSession claim8_state "web_b").1.isTyping = true := by decide

/-- C8 (amended): every session switch empties the Timeline, whatever
its previous contents; but switchSession never touches TypingFlag,
which keeps its previous value instead of being reset to false. -/
theorem claim8_switch_clears_timeline (st : AppState) (newId : String) :
    (switchSession st newId).1.messages = []
    ∧ (switchSession st newId).1.isTyping = st.isTyping := by
  by_cases heq : newId = st.userId
  · simp [switchSession, completeRender, switchSessionEffs, runEffs, applyEff,
          runUserIdEffect, heq]
  · cases hws : st.ws <;>
      simp [switchSession, completeRender, switchSessionEffs, runEffs, applyEff,
            runUserIdEffect, effectCleanup, connectEffs, hws, heq]

theorem switchSession_userId (st : AppState) (newId : String) :
    (switchSession st newId).1.userId = newId := by
  by_cases heq : newId = st.userId
  · simp [switchSession, completeRender, switchSessionEffs, runEffs, applyEff,
          runUserIdEffect, heq]
  · cases hws : st.ws <;>
      simp [switchSession, completeRender, switchSessionEffs, runEffs, applyEff,
            runUserIdEffect, effectCleanup, connectEffs, hws, heq]

theorem completeRender_newUserId_reset (st : AppState) (id : String) :
    (completeRender st.userId st (switchSessionEffs id ++ [Eff.setNewUserId ""])).1
      = { (switchSession st id).1 with newUserId := "" } := by
  by_cases heq : id = st.userId
  · simp [completeRender, switchSession, switchSessionEffs, runEffs, applyEff,
          runUserIdEffect, heq]
  · cases hws : st.ws <;>
      simp [completeRender, switchSession, switchSessionEffs, runEffs, applyEff,
            runUserIdEffect, effectCleanup, connectEffs, hws, heq]

def claim9_state : AppState :=
  { messages := []
    input := ""
    isTyping := false
    userId := "web_a"
    showSessionPicker := false
    newUserId := " alice "
    ws := some { target := "web_a", readyState := ReadyState.OPEN } }

/-- C9 counterexample: with preferredId " alice " — non-empty after
trimming — the derived identity is the trimmed string "alice", not the
preferredId " alice " itself as the claim states. -/
theorem claim9_counterexample :
    (handleNewSession claim9_state "r4nd0m").1.userId = "alice"
    ∧ ¬ (handleNewSession claim9_state "r4nd0m").1.userId = " alice " := by decide

/-- C9 (amended): handleNewSession derives the new identity as the
TRIMMED preferredId when that is non-empty, and otherwise as "web_"
followed by the random suffix; the resulting state is exactly that of
switchSession at the derived identity, with the pending newUserId
input additionally reset to empty. -/
theorem claim9_handleNewSession (st : AppState) (rand : String) :
    (handleNewSession st rand).1.userId
      = (if jsTrim st.newUserId = "" then "web_" ++ rand else jsTrim st.newUserId)
    ∧ (handleNewSession st rand).1
      = { (switchSession st (if jsTrim st.newUserId = "" then "web_" ++ rand
                             else jsTrim st.newUserId)).1 with newUserId := "" } := by
  refine ⟨?_, completeRender_newUserId_reset st _⟩
  show (completeRender st.userId st
          (switchSessionEffs (if jsTrim st.newUserId = "" then "web_" ++ rand
                              else jsTrim st.newUserId)
            ++ [Eff.setNewUserId ""])).1.userId = _
  rw [completeRender_newUserId_reset]
  simp [switchSession_userId]

end HomelabAgent
